import Mathlib

/-!
Verification of the flashrom PCI device core (`pcidev.c`).

This file gives a shallow embedding of the functions of `pcidev.c`:
the BAR classifier (`pcidev_readbar`), the two device resolvers
(`pcidev_init` and `flashrom_pci_init`), the sysfs enable/disable
toggles, the MMIO resource mapper (`flashrom_pci_mmio_map`) and the
bounds-checked MMIO accessors.  External collaborators (libpci config
space reads, the sysfs file system, `mmap`) are modelled as explicit
inputs: config-space reads are fields of the device record, and the
outcomes of file operations are fields of small world records.
Machine integers are `Nat` with explicit `% 2^w` truncation at the
points where the C types impose a width.
-/

/-! ### Platform model

`uintptr64` models `sizeof(uintptr_t) == sizeof(uint64_t)`; on the
platforms this code targets (ILP32 / LP64) the width of `unsigned
long` — used by the libpci mask constants — equals the pointer width.
`have_outb` models the compile-time `__FLASHROM_HAVE_OUTB__` flag. -/
structure Platform where
  uintptr64 : Bool
  have_outb : Bool

/-- Width in bits of `unsigned long` (and of `uintptr_t`). -/
def ulong_bits (p : Platform) : Nat := if p.uintptr64 then 64 else 32

/-! ### libpci constants (from pci/header.h, used by pcidev.c) -/

def PCI_HEADER_TYPE : Nat := 0x0e
def PCI_HEADER_TYPE_NORMAL : Nat := 0
def PCI_HEADER_TYPE_BRIDGE : Nat := 1
def PCI_HEADER_TYPE_CARDBUS : Nat := 2
def PCI_BASE_ADDRESS_0 : Nat := 0x10
def PCI_BASE_ADDRESS_1 : Nat := 0x14
def PCI_BASE_ADDRESS_2 : Nat := 0x18
def PCI_BASE_ADDRESS_3 : Nat := 0x1c
def PCI_BASE_ADDRESS_4 : Nat := 0x20
def PCI_BASE_ADDRESS_5 : Nat := 0x24
def PCI_ROM_ADDRESS : Nat := 0x30
def PCI_ROM_ADDRESS1 : Nat := 0x38
def PCI_BASE_ADDRESS_SPACE : Nat := 0x01
def PCI_BASE_ADDRESS_SPACE_IO : Nat := 0x01
def PCI_COMMAND : Nat := 0x04
def PCI_COMMAND_MEMORY : Nat := 0x2

/-- `PCI_BASE_ADDRESS_MEM_MASK` is `~0x0fUL`: all-ones of the
`unsigned long` width with the low 4 bits clear. -/
def PCI_BASE_ADDRESS_MEM_MASK (p : Platform) : Nat := 2 ^ ulong_bits p - 0x10

/-- `PCI_BASE_ADDRESS_IO_MASK` is `~0x03UL`. -/
def PCI_BASE_ADDRESS_IO_MASK (p : Platform) : Nat := 2 ^ ulong_bits p - 0x4

/-- `PCI_ROM_ADDRESS_MASK` is `~0x7ffUL`. -/
def PCI_ROM_ADDRESS_MASK (p : Platform) : Nat := 2 ^ ulong_bits p - 0x800

/-! ### Linux errno values used by pcidev.c -/

def EINVAL : Nat := 22
def EFAULT : Nat := 14
def EALREADY : Nat := 114

/-! ### Enumerated device (libpci `struct pci_dev`)

The enumeration collaborator owns this record; `pcidev.c` only reads
it.  The config-space read primitives `pci_read_byte` /
`pci_read_word` / `pci_read_long` are modelled as the fields
`config_byte` / `config_word` / `config_long` (truncated to their C
widths at each use).  `size` models the per-BAR declared sizes
(`dev->size[bar]`). -/
structure PciDev where
  vendor_id : Nat
  device_id : Nat
  domain : Nat
  bus : Nat
  dev : Nat
  func : Nat
  config_byte : Nat → Nat
  config_word : Nat → Nat
  config_long : Nat → Nat
  size : Nat → Nat

/-- `enum pci_bartype` from pcidev.c. -/
inductive pci_bartype where
  | TYPE_MEMBAR
  | TYPE_IOBAR
  | TYPE_ROMBAR
  | TYPE_UNKNOWN

/-- Diagnostic strings emitted through `msg_perr` in `pcidev_readbar`. -/
def msg_unknown_header : String :=
  "Unknown PCI header type, BAR type cannot be determined reliably.\n"

def msg_mem_disabled : String :=
  "MEM BAR access requested, but device has MEM space accesses disabled.\n"

def msg_bar_unreachable : String :=
  "BAR unreachable!"

def msg_io_disabled : String :=
  "I/O BAR access requested, but device has I/O space accesses disabled.\n"

def msg_io_unsupported : String :=
  "I/O BAR access requested, but flashrom does not support I/O BAR access on this platform (yet).\n"

def msg_bar_unknown : String :=
  "BAR type unknown, please report a bug at flashrom@flashrom.org\n"

/-- The "sanity checks" switch of `pcidev_readbar` (pcidev.c lines
55-94): classify the requested register from the header type, the
register offset and the raw register value, together with the
`msg_perr` diagnostics emitted by the unknown-header default case. -/
def pcidev_bartype (headertype bar addr : Nat) : pci_bartype × List String :=
  if headertype = PCI_HEADER_TYPE_NORMAL then
    if bar = PCI_BASE_ADDRESS_0 ∨ bar = PCI_BASE_ADDRESS_1 ∨ bar = PCI_BASE_ADDRESS_2 ∨
       bar = PCI_BASE_ADDRESS_3 ∨ bar = PCI_BASE_ADDRESS_4 ∨ bar = PCI_BASE_ADDRESS_5 then
      if addr &&& PCI_BASE_ADDRESS_SPACE = PCI_BASE_ADDRESS_SPACE_IO then
        (pci_bartype.TYPE_IOBAR, [])
      else
        (pci_bartype.TYPE_MEMBAR, [])
    else if bar = PCI_ROM_ADDRESS then
      (pci_bartype.TYPE_ROMBAR, [])
    else
      (pci_bartype.TYPE_UNKNOWN, [])
  else if headertype = PCI_HEADER_TYPE_BRIDGE then
    if bar = PCI_BASE_ADDRESS_0 ∨ bar = PCI_BASE_ADDRESS_1 then
      if addr &&& PCI_BASE_ADDRESS_SPACE = PCI_BASE_ADDRESS_SPACE_IO then
        (pci_bartype.TYPE_IOBAR, [])
      else
        (pci_bartype.TYPE_MEMBAR, [])
    else if bar = PCI_ROM_ADDRESS1 then
      (pci_bartype.TYPE_ROMBAR, [])
    else
      (pci_bartype.TYPE_UNKNOWN, [])
  else if headertype = PCI_HEADER_TYPE_CARDBUS then
    (pci_bartype.TYPE_UNKNOWN, [])
  else
    (pci_bartype.TYPE_UNKNOWN, [msg_unknown_header])

/-- `pcidev_readbar` (pcidev.c lines 39-155).  Returns the resolved
address — the C function's `(uintptr_t)addr` return value — together
with the list of `msg_perr` diagnostics emitted on the way.  `addr` is
a `uint64_t`; the 32-bit config reads are truncated with `% 2^32`, and
the final cast to `uintptr_t` truncates to the platform word. -/
def pcidev_readbar (p : Platform) (dev : PciDev) (bar : Nat) : Nat × List String :=
  let headertype := (dev.config_byte PCI_HEADER_TYPE % 2 ^ 8) &&& 0x7f
  let addr := dev.config_long bar % 2 ^ 32
  let cls := pcidev_bartype headertype bar addr
  let supported_cycles := dev.config_word PCI_COMMAND % 2 ^ 16
  match cls.1 with
  | pci_bartype.TYPE_MEMBAR =>
    let msgs := if supported_cycles &&& PCI_COMMAND_MEMORY = 0 then
        cls.2 ++ [msg_mem_disabled] else cls.2
    if addr &&& 0x6 = 0x4 then
      let upperaddr := dev.config_long (bar + 4) % 2 ^ 32
      if upperaddr ≠ 0 then
        if p.uintptr64 = false then
          (0, msgs ++ [msg_bar_unreachable])
        else
          (((addr ||| upperaddr <<< 32) &&& PCI_BASE_ADDRESS_MEM_MASK p) % 2 ^ ulong_bits p,
           msgs)
      else
        ((addr &&& PCI_BASE_ADDRESS_MEM_MASK p) % 2 ^ ulong_bits p, msgs)
    else
      ((addr &&& PCI_BASE_ADDRESS_MEM_MASK p) % 2 ^ ulong_bits p, msgs)
  | pci_bartype.TYPE_IOBAR =>
    let msgs := if p.have_outb then
        -- 0x1 is PCI_COMMAND_IO (config-space I/O decode enable bit)
        (if supported_cycles &&& 0x1 = 0 then cls.2 ++ [msg_io_disabled] else cls.2)
      else cls.2 ++ [msg_io_unsupported]
    ((addr &&& PCI_BASE_ADDRESS_IO_MASK p) % 2 ^ ulong_bits p, msgs)
  | pci_bartype.TYPE_ROMBAR =>
    let msgs := if supported_cycles &&& PCI_COMMAND_MEMORY = 0 then
        cls.2 ++ [msg_mem_disabled] else cls.2
    ((addr &&& PCI_ROM_ADDRESS_MASK p) % 2 ^ ulong_bits p, msgs)
  | pci_bartype.TYPE_UNKNOWN =>
    (addr % 2 ^ ulong_bits p, cls.2 ++ [msg_bar_unknown])

/-! ### Bit-level helper lemmas for the BAR classifier -/

/-- Bits of a two-sided power-of-two mask: `2^n - 2^k` has exactly the
bits `k ≤ i < n` set. -/
theorem testBit_two_pow_sub_two_pow {n k : Nat} (h : k ≤ n) (i : Nat) :
    (2 ^ n - 2 ^ k : Nat).testBit i = (decide (k ≤ i) && decide (i < n)) := by
  have h1 : (2 ^ n - 2 ^ k : Nat) = (2 ^ (n - k) - 1) <<< k := by
    rw [Nat.shiftLeft_eq, Nat.sub_mul, one_mul, ← Nat.pow_add]
    have h2 : n - k + k = n := Nat.sub_add_cancel h
    rw [h2]
  rw [h1, Nat.testBit_shiftLeft, Nat.testBit_two_pow_sub_one]
  by_cases hk : k ≤ i
  · have hk2 : (decide (i ≥ k)) = true := by simp only [ge_iff_le, decide_eq_true_eq]; omega
    rw [hk2]
    simp only [Bool.true_and]
    exact decide_eq_decide.mpr (by omega)
  · have hk2 : (decide (i ≥ k)) = false := by simp only [ge_iff_le, decide_eq_false_iff_not]; omega
    rw [hk2]
    simp only [Bool.false_and]

/-- A number below `2^n` has no bits at positions `≥ n`. -/
theorem testBit_eq_false_of_lt {x n i : Nat} (hx : x < 2 ^ n) (hi : n ≤ i) :
    x.testBit i = false :=
  Nat.testBit_lt_two_pow (lt_of_lt_of_le hx (Nat.pow_le_pow_right (by norm_num) hi))

/-- Masking a 32-bit value with the 64-bit memory mask is the same as
masking with the 32-bit memory mask. -/
theorem and_mem_mask64_of_lt {x : Nat} (hx : x < 2 ^ 32) :
    x &&& (2 ^ 64 - 16) = x &&& (2 ^ 32 - 16) := by
  apply Nat.eq_of_testBit_eq
  intro i
  have e16 : (16 : Nat) = 2 ^ 4 := by norm_num
  rw [Nat.testBit_and, Nat.testBit_and, e16,
      testBit_two_pow_sub_two_pow (by norm_num : 4 ≤ 64) i,
      testBit_two_pow_sub_two_pow (by norm_num : 4 ≤ 32) i]
  by_cases h32 : i < 32
  · have h64 : (decide (i < 64)) = true := by simp only [decide_eq_true_eq]; omega
    have h32t : (decide (i < 32)) = true := by simp only [decide_eq_true_eq]; omega
    rw [h64, h32t]
  · rw [testBit_eq_false_of_lt hx (Nat.not_lt.mp h32), Bool.false_and, Bool.false_and]

/-- The upper 32 bits of the merged, memory-masked 64-bit BAR value are
exactly the upper address register. -/
theorem merged_mask_shiftRight {a u : Nat} (ha : a < 2 ^ 32) (hu : u < 2 ^ 32) :
    ((a ||| u <<< 32) &&& (2 ^ 64 - 16)) >>> 32 = u := by
  apply Nat.eq_of_testBit_eq
  intro i
  have e16 : (16 : Nat) = 2 ^ 4 := by norm_num
  rw [Nat.testBit_shiftRight, Nat.testBit_and, Nat.testBit_or, Nat.testBit_shiftLeft, e16,
      testBit_two_pow_sub_two_pow (by norm_num : 4 ≤ 64) (32 + i)]
  rw [testBit_eq_false_of_lt ha (by omega : 32 ≤ 32 + i), Bool.false_or]
  have hge : (decide (32 + i ≥ 32)) = true := by
    simp only [ge_iff_le, decide_eq_true_eq]; omega
  have h4 : (decide (4 ≤ 32 + i)) = true := by simp only [decide_eq_true_eq]; omega
  have hsub : 32 + i - 32 = i := by omega
  rw [hge, Bool.true_and, h4, Bool.true_and, hsub]
  by_cases h2 : i < 32
  · have h3 : (decide (32 + i < 64)) = true := by simp only [decide_eq_true_eq]; omega
    rw [h3, Bool.and_true]
  · rw [testBit_eq_false_of_lt hu (Nat.not_lt.mp h2), Bool.false_and]

/-- The low 32 bits of the merged, memory-masked 64-bit BAR value are
the low register with its four attribute bits cleared. -/
theorem merged_mask_mod {a u : Nat} (ha : a < 2 ^ 32) :
    ((a ||| u <<< 32) &&& (2 ^ 64 - 16)) % 2 ^ 32 = a &&& (2 ^ 32 - 16) := by
  apply Nat.eq_of_testBit_eq
  intro i
  have e16 : (16 : Nat) = 2 ^ 4 := by norm_num
  rw [Nat.testBit_mod_two_pow, Nat.testBit_and, Nat.testBit_or, Nat.testBit_shiftLeft,
      Nat.testBit_and, e16,
      testBit_two_pow_sub_two_pow (by norm_num : 4 ≤ 64) i,
      testBit_two_pow_sub_two_pow (by norm_num : 4 ≤ 32) i]
  by_cases h2 : i < 32
  · have h2t : (decide (i < 32)) = true := by simp only [decide_eq_true_eq]; omega
    have h64 : (decide (i < 64)) = true := by simp only [decide_eq_true_eq]; omega
    have hge : (decide (i ≥ 32)) = false := by
      simp only [ge_iff_le, decide_eq_false_iff_not]; omega
    rw [h2t, h64, hge]
    simp only [Bool.false_and, Bool.or_false, Bool.true_and, Bool.and_true]
  · have h2f : (decide (i < 32)) = false := by simp only [decide_eq_false_iff_not]; omega
    rw [h2f, Bool.false_and, testBit_eq_false_of_lt ha (Nat.not_lt.mp h2), Bool.false_and]

/-! ### Concrete platforms and devices used as witnesses -/

def plat64 : Platform := { uintptr64 := true, have_outb := true }

def plat32 : Platform := { uintptr64 := false, have_outb := true }

/-- A type-0 device whose BAR0 is a 64-bit memory BAR with a non-zero
upper half (`0x00000001_e000000c`). -/
def dev_mem64 : PciDev :=
  { vendor_id := 0x8086, device_id := 0x1234, domain := 0, bus := 0, dev := 3, func := 0,
    config_byte := fun _ => 0,
    config_word := fun _ => PCI_COMMAND_MEMORY,
    config_long := fun r =>
      if r = PCI_BASE_ADDRESS_0 then 0xe000000c
      else if r = PCI_BASE_ADDRESS_0 + 4 then 0x1
      else 0,
    size := fun _ => 0x1000 }

/-- A CardBus (header type 2) device with a non-zero raw BAR0 value. -/
def dev_cardbus : PciDev :=
  { vendor_id := 0x104c, device_id := 0xac1c, domain := 0, bus := 1, dev := 0, func := 0,
    config_byte := fun r => if r = PCI_HEADER_TYPE then PCI_HEADER_TYPE_CARDBUS else 0,
    config_word := fun _ => PCI_COMMAND_MEMORY,
    config_long := fun r => if r = PCI_BASE_ADDRESS_0 then 0x12345678 else 0,
    size := fun _ => 0 }

/-- Claim C2: for a memory BAR whose raw value has bits [2:1] = 10
(64-bit), `pcidev_readbar` reads the upper 32-bit register at
offset+4; a non-zero upper register is merged as the upper 32 bits of
the returned address (attribute bits masked) on a 64-bit platform, is
the zero/failure sentinel on a narrower platform, and a zero upper
register is elided, returning the masked 32-bit address. -/
theorem c2_readbar_64bit_membar (p : Platform) (dev : PciDev) (bar : Nat)
    (hcls : (pcidev_bartype ((dev.config_byte PCI_HEADER_TYPE % 2 ^ 8) &&& 0x7f) bar
        (dev.config_long bar % 2 ^ 32)).1 = pci_bartype.TYPE_MEMBAR)
    (h64 : (dev.config_long bar % 2 ^ 32) &&& 0x6 = 0x4) :
    (dev.config_long (bar + 4) % 2 ^ 32 ≠ 0 → p.uintptr64 = true →
       (pcidev_readbar p dev bar).1 >>> 32 = dev.config_long (bar + 4) % 2 ^ 32 ∧
       (pcidev_readbar p dev bar).1 % 2 ^ 32 =
         (dev.config_long bar % 2 ^ 32) &&& 0xFFFFFFF0) ∧
    (dev.config_long (bar + 4) % 2 ^ 32 ≠ 0 → p.uintptr64 = false →
       (pcidev_readbar p dev bar).1 = 0) ∧
    (dev.config_long (bar + 4) % 2 ^ 32 = 0 →
       (pcidev_readbar p dev bar).1 = (dev.config_long bar % 2 ^ 32) &&& 0xFFFFFFF0) := by
  have ha : dev.config_long bar % 2 ^ 32 < 2 ^ 32 := Nat.mod_lt _ (by norm_num)
  refine ⟨?_, ?_, ?_⟩
  · intro hu hp
    have hu' : dev.config_long (bar + 4) % 2 ^ 32 < 2 ^ 32 := Nat.mod_lt _ (by norm_num)
    have hres : (pcidev_readbar p dev bar).1 =
        (((dev.config_long bar % 2 ^ 32) |||
          (dev.config_long (bar + 4) % 2 ^ 32) <<< 32) &&&
            PCI_BASE_ADDRESS_MEM_MASK p) % 2 ^ ulong_bits p := by
      simp only [pcidev_readbar]
      split
      · rw [if_pos h64, if_pos hu, if_neg (by simp [hp])]
      · rename_i heq; rw [hcls] at heq; exact pci_bartype.noConfusion heq
      · rename_i heq; rw [hcls] at heq; exact pci_bartype.noConfusion heq
      · rename_i heq; rw [hcls] at heq; exact pci_bartype.noConfusion heq
    have hw : ulong_bits p = 64 := by simp [ulong_bits, hp]
    have hm : PCI_BASE_ADDRESS_MEM_MASK p = 2 ^ 64 - 16 := by
      simp [PCI_BASE_ADDRESS_MEM_MASK, hw]
    rw [hres, hw, hm]
    have hlt : (((dev.config_long bar % 2 ^ 32) |||
        (dev.config_long (bar + 4) % 2 ^ 32) <<< 32) &&& (2 ^ 64 - 16)) < 2 ^ 64 :=
      lt_of_le_of_lt Nat.and_le_right (by norm_num)
    rw [Nat.mod_eq_of_lt hlt]
    refine ⟨merged_mask_shiftRight ha hu', ?_⟩
    rw [merged_mask_mod ha]
    norm_num
  · intro hu hp
    simp only [pcidev_readbar]
    split
    · rw [if_pos h64, if_pos hu, if_pos hp]
    · rename_i heq; rw [hcls] at heq; exact pci_bartype.noConfusion heq
    · rename_i heq; rw [hcls] at heq; exact pci_bartype.noConfusion heq
    · rename_i heq; rw [hcls] at heq; exact pci_bartype.noConfusion heq
  · intro hu
    have hres : (pcidev_readbar p dev bar).1 =
        ((dev.config_long bar % 2 ^ 32) &&&
          PCI_BASE_ADDRESS_MEM_MASK p) % 2 ^ ulong_bits p := by
      simp only [pcidev_readbar]
      split
      · rw [if_pos h64, if_neg (not_not_intro hu)]
      · rename_i heq; rw [hcls] at heq; exact pci_bartype.noConfusion heq
      · rename_i heq; rw [hcls] at heq; exact pci_bartype.noConfusion heq
      · rename_i heq; rw [hcls] at heq; exact pci_bartype.noConfusion heq
    rw [hres]
    have hlt : ((dev.config_long bar % 2 ^ 32) &&&
        PCI_BASE_ADDRESS_MEM_MASK p) < 2 ^ ulong_bits p :=
      lt_of_le_of_lt Nat.and_le_right (by
        have h0 : 0 < 2 ^ ulong_bits p := Nat.pos_pow_of_pos _ (by norm_num)
        simp only [PCI_BASE_ADDRESS_MEM_MASK]
        omega)
    rw [Nat.mod_eq_of_lt hlt]
    cases hp : p.uintptr64 with
    | true =>
      have hw : ulong_bits p = 64 := by simp [ulong_bits, hp]
      have hm : PCI_BASE_ADDRESS_MEM_MASK p = 2 ^ 64 - 16 := by
        simp [PCI_BASE_ADDRESS_MEM_MASK, hw]
      rw [hm, and_mem_mask64_of_lt ha]
      norm_num
    | false =>
      have hw : ulong_bits p = 32 := by simp [ulong_bits, hp]
      have hm : PCI_BASE_ADDRESS_MEM_MASK p = 2 ^ 32 - 16 := by
        simp [PCI_BASE_ADDRESS_MEM_MASK, hw]
      rw [hm]
      norm_num

/-- Witness for C2 at a concrete 64-bit memory BAR on both platform widths. -/
theorem c2_readbar_64bit_membar_witness :
    ((dev_mem64.config_long (PCI_BASE_ADDRESS_0 + 4) % 2 ^ 32 ≠ 0 → plat64.uintptr64 = true →
       (pcidev_readbar plat64 dev_mem64 PCI_BASE_ADDRESS_0).1 >>> 32 =
         dev_mem64.config_long (PCI_BASE_ADDRESS_0 + 4) % 2 ^ 32 ∧
       (pcidev_readbar plat64 dev_mem64 PCI_BASE_ADDRESS_0).1 % 2 ^ 32 =
         (dev_mem64.config_long PCI_BASE_ADDRESS_0 % 2 ^ 32) &&& 0xFFFFFFF0) ∧
     (dev_mem64.config_long (PCI_BASE_ADDRESS_0 + 4) % 2 ^ 32 ≠ 0 → plat64.uintptr64 = false →
       (pcidev_readbar plat64 dev_mem64 PCI_BASE_ADDRESS_0).1 = 0) ∧
     (dev_mem64.config_long (PCI_BASE_ADDRESS_0 + 4) % 2 ^ 32 = 0 →
       (pcidev_readbar plat64 dev_mem64 PCI_BASE_ADDRESS_0).1 =
         (dev_mem64.config_long PCI_BASE_ADDRESS_0 % 2 ^ 32) &&& 0xFFFFFFF0)) ∧
    (dev_mem64.config_long (PCI_BASE_ADDRESS_0 + 4) % 2 ^ 32 ≠ 0 → plat32.uintptr64 = false →
       (pcidev_readbar plat32 dev_mem64 PCI_BASE_ADDRESS_0).1 = 0) :=
  ⟨c2_readbar_64bit_membar plat64 dev_mem64 PCI_BASE_ADDRESS_0 (by rfl) (by decide),
   (c2_readbar_64bit_membar plat32 dev_mem64 PCI_BASE_ADDRESS_0 (by rfl) (by decide)).2.1⟩

/-- Claim C3 (amended): when the header type / offset combination is
not recognised, `pcidev_readbar` classifies the BAR as unknown, emits
the operator-facing "BAR type unknown" diagnostic without failing
fatally, and returns the raw register value truncated to the platform
word — not a masked address of 0. -/
theorem c3_readbar_unknown (p : Platform) (dev : PciDev) (bar : Nat)
    (hcls : (pcidev_bartype ((dev.config_byte PCI_HEADER_TYPE % 2 ^ 8) &&& 0x7f) bar
        (dev.config_long bar % 2 ^ 32)).1 = pci_bartype.TYPE_UNKNOWN) :
    (pcidev_readbar p dev bar).1 = (dev.config_long bar % 2 ^ 32) % 2 ^ ulong_bits p ∧
    msg_bar_unknown ∈ (pcidev_readbar p dev bar).2 := by
  constructor
  · simp only [pcidev_readbar]
    split
    · rename_i heq; rw [hcls] at heq; exact pci_bartype.noConfusion heq
    · rename_i heq; rw [hcls] at heq; exact pci_bartype.noConfusion heq
    · rename_i heq; rw [hcls] at heq; exact pci_bartype.noConfusion heq
    · rfl
  · simp only [pcidev_readbar]
    split
    · rename_i heq; rw [hcls] at heq; exact pci_bartype.noConfusion heq
    · rename_i heq; rw [hcls] at heq; exact pci_bartype.noConfusion heq
    · rename_i heq; rw [hcls] at heq; exact pci_bartype.noConfusion heq
    · simp

/-- Counterexample to C3 as stated: a CardBus device whose raw BAR0
register reads 0x12345678 makes `pcidev_readbar` return 0x12345678 —
the raw, unmasked register value — not the masked address 0 the claim
asserts. -/
theorem c3_cex_unknown_returns_raw :
    (pcidev_readbar plat64 dev_cardbus PCI_BASE_ADDRESS_0).1 = 0x12345678 ∧
    ¬ (pcidev_readbar plat64 dev_cardbus PCI_BASE_ADDRESS_0).1 = 0 := by
  exact ⟨by decide, by decide⟩

/-- Witness for C3 at the concrete CardBus device. -/
theorem c3_readbar_unknown_witness :
    (pcidev_readbar plat64 dev_cardbus PCI_BASE_ADDRESS_0).1 =
      (dev_cardbus.config_long PCI_BASE_ADDRESS_0 % 2 ^ 32) % 2 ^ ulong_bits plat64 ∧
    msg_bar_unknown ∈ (pcidev_readbar plat64 dev_cardbus PCI_BASE_ADDRESS_0).2 :=
  c3_readbar_unknown plat64 dev_cardbus PCI_BASE_ADDRESS_0 (by rfl)

/-! ### Device resolver: `pcidev_init` (pcidev.c lines 195-262)

`pci_init_common`, `extract_programmer_param` and
`pci_filter_parse_slot` / `pci_filter_match` are collaborators outside
this file: their outcomes are modelled by the `initOk` / `filterOk`
booleans and by the location-filter predicate `filt` (the parsed
`pci=bb:dd.f` constraint; the trivial all-true predicate when the user
gave none). -/

/-- One entry of the caller-supplied whitelist (`struct dev_entry`).
The C array is terminated by an entry with a NULL `device_name`; the
list models exactly the non-sentinel entries.  The vendor/device name
strings and the `status` tag only feed diagnostics, never matching. -/
structure dev_entry where
  vendor_id : Nat
  device_id : Nat
  status : Nat

/-- The whitelist scan of pcidev.c lines 223-229: the device survives
iff some entry matches its (vendor_id, device_id) pair. -/
def dev_entry_match (devs : List dev_entry) (d : PciDev) : Bool :=
  devs.any fun e => e.vendor_id == d.vendor_id && e.device_id == d.device_id

/-- The matching loop of `pcidev_init` (pcidev.c lines 220-249):
`found_dev` and `found` accumulated over the enumerated device list. -/
def pcidev_resolve (plat : Platform) (devs : List dev_entry) (bar : Nat)
    (filt : PciDev → Bool) (devices : List PciDev) : Option PciDev × Nat :=
  devices.foldl
    (fun acc dv =>
      if filt dv && dev_entry_match devs dv then
        if (pcidev_readbar plat dv bar).1 ≠ 0 then (some dv, acc.2 + 1) else acc
      else acc)
    (none, 0)

/-- Result of `pcidev_init`: the returned `struct pci_dev *` together
with the diagnostic class emitted on the NULL paths. -/
inductive PcidevInitResult where
  | initFailed
  | filterError
  | noSupportedDevice
  | multipleDevices
  | found (d : Option PciDev)

/-- `pcidev_init` (pcidev.c lines 195-262): returns `found found_dev`
iff exactly one supported device with a usable BAR survived; zero
survivors yield the "No supported PCI device found" diagnostic and
NULL, several survivors yield the "use pci=bb:dd.f" diagnostic and
NULL. -/
def pcidev_init (plat : Platform) (initOk filterOk : Bool) (filt : PciDev → Bool)
    (devs : List dev_entry) (bar : Nat) (devices : List PciDev) : PcidevInitResult :=
  if initOk = false then PcidevInitResult.initFailed
  else if filterOk = false then PcidevInitResult.filterError
  else
    let st := pcidev_resolve plat devs bar filt devices
    if st.2 = 0 then PcidevInitResult.noSupportedDevice
    else if st.2 > 1 then PcidevInitResult.multipleDevices
    else PcidevInitResult.found st.1

/-- The survivor predicate of `pcidev_init`: location filter, identity
whitelist, and a non-zero classified BAR address. -/
def pcidev_survivor (plat : Platform) (devs : List dev_entry) (bar : Nat)
    (filt : PciDev → Bool) (dv : PciDev) : Bool :=
  filt dv && dev_entry_match devs dv && decide ((pcidev_readbar plat dv bar).1 ≠ 0)

/-! ### Resolved device handle and sysfs world -/

/-- The value of the handle's `mmio` pointer field: NULL, the
`MAP_FAILED` sentinel (`(void *)-1`), or a live mapping.  A mapped
pointer carries the byte memory it points at. -/
inductive MmioPtr where
  | null
  | mapFailed
  | mapped (mem : Nat → Nat)

/-- Modelled from the spec: `struct flashrom_pci_device` is declared
in programmer.h, which is not part of this source tree.  The spec's
Resolved Device Handle: name, matched identity, reference to the
enumerated device, sysfs locator, mapped-memory pointer plus byte
length, the enabled / was-originally-disabled flag pair, and the
opaque caller-owned extension slot (`private`; `private` is a reserved
word in Lean, so the field is named `private_data`). -/
structure FlashromPciDevice where
  name : Option String
  vendor_id : Nat
  device_id : Nat
  pci : PciDev
  sysfs_path : String
  mmio : MmioPtr
  mmio_size : Nat
  enabled : Bool
  was_disabled : Bool
  private_data : Nat

/-- Outcome world for one sysfs `enable` file interaction: whether
`open` / `read` / `write` succeed, the `errno` each failure carries,
and the single character the file currently holds. -/
structure SysfsFile where
  openOk : Bool
  openErrno : Nat
  readOk : Bool
  readErrno : Nat
  content : Char
  writeOk : Bool
  writeErrno : Nat

/-- Result of an enable/disable call: the C return value, the mutated
handle, the file after the call, and the characters written to it. -/
structure EnResult where
  ret : Nat
  dev : FlashromPciDevice
  file : SysfsFile
  writes : List Char

/-- `flashrom_pci_device_enable` (pcidev.c lines 429-478): no-op on an
already-enabled handle; otherwise read the enable flag, flip a read
'0' to '1' (recording `was_disabled`), reject any character other
than '0'/'1' with EINVAL, and mark the handle enabled. -/
def flashrom_pci_device_enable (f : SysfsFile) (d : FlashromPciDevice) : EnResult :=
  if d.enabled then { ret := 0, dev := d, file := f, writes := [] }
  else if f.openOk = false then { ret := f.openErrno, dev := d, file := f, writes := [] }
  else if f.readOk = false then { ret := f.readErrno, dev := d, file := f, writes := [] }
  else if f.content = '0' then
    let d1 := { d with was_disabled := true }
    if f.writeOk = false then { ret := f.writeErrno, dev := d1, file := f, writes := [] }
    else { ret := 0, dev := { d1 with enabled := true },
           file := { f with content := '1' }, writes := ['1'] }
  else if f.content ≠ '1' then
    { ret := EINVAL, dev := d, file := f, writes := [] }
  else
    { ret := 0, dev := { d with enabled := true }, file := f, writes := [] }

/-- `flashrom_pci_device_disable` (pcidev.c lines 483-532): no-op
unless the handle is currently enabled and was originally disabled by
this process; otherwise read the enable flag, flip a read '1' back to
'0', reject any character other than '0'/'1' with EINVAL, and mark the
handle disabled. -/
def flashrom_pci_device_disable (f : SysfsFile) (d : FlashromPciDevice) : EnResult :=
  if d.enabled = false ∨ d.was_disabled = false then
    { ret := 0, dev := d, file := f, writes := [] }
  else if f.openOk = false then { ret := f.openErrno, dev := d, file := f, writes := [] }
  else if f.readOk = false then { ret := f.readErrno, dev := d, file := f, writes := [] }
  else if f.content = '1' then
    if f.writeOk = false then { ret := f.writeErrno, dev := d, file := f, writes := [] }
    else { ret := 0, dev := { d with enabled := false },
           file := { f with content := '0' }, writes := ['0'] }
  else if f.content ≠ '0' then
    { ret := EINVAL, dev := d, file := f, writes := [] }
  else
    { ret := 0, dev := { d with enabled := false }, file := f, writes := [] }

/-! ### Device resolver: `flashrom_pci_init` (pcidev.c lines 573-670) -/

/-- Modelled from the spec: `struct flashrom_pci_match` is declared in
programmer.h, which is not part of this source tree.  An identity
match entry (vendor, device, support-status tag) carrying the caller's
opaque per-match extension data; the C array is terminated by an entry
with `vendor_id == 0`, and the list models the non-sentinel entries. -/
structure flashrom_pci_match where
  vendor_id : Nat
  device_id : Nat
  status : Nat
  private_data : Nat

/-- The match-list scan of pcidev.c lines 604-610. -/
def flashrom_match_entry (ms : List flashrom_pci_match) (d : PciDev) : Bool :=
  ms.any fun m => m.vendor_id == d.vendor_id && m.device_id == d.device_id

/-- The matching loop of `flashrom_pci_init` (pcidev.c lines 602-636):
`found_dev` and `found` accumulated over the enumerated device list.
No BAR check is involved in this resolver. -/
def flashrom_resolve (filt : PciDev → Bool) (ms : List flashrom_pci_match)
    (devices : List PciDev) : Option PciDev × Nat :=
  devices.foldl
    (fun acc dv =>
      if filt dv && flashrom_match_entry ms dv then (some dv, acc.2 + 1) else acc)
    (none, 0)

/-- The survivor predicate of `flashrom_pci_init`: location filter and
identity match only. -/
def flashrom_survivor (filt : PciDev → Bool) (ms : List flashrom_pci_match)
    (dv : PciDev) : Bool :=
  filt dv && flashrom_match_entry ms dv

/-- The sysfs locator computed at pcidev.c lines 657-660.  The C code
formats the BDF in zero-padded hex; the exact text is never consumed
by this file (file outcomes are worlds), so a decimal rendering stands
in for the `%04x:%02x:%02x.%01x` format. -/
def pci_sysfs_path (d : PciDev) : String :=
  "/sys/bus/pci/devices/" ++ toString d.domain ++ ":" ++ toString d.bus ++ ":" ++
    toString d.dev ++ "." ++ toString d.func ++ "/"

/-- Handle construction on the success path of `flashrom_pci_init`
(pcidev.c lines 648-662): `calloc` zeroes every field, then name,
identity, device reference, sysfs path and the first matching entry's
private data are filled in. -/
def flashrom_mk_device (lookupName : PciDev → Option String)
    (ms : List flashrom_pci_match) (fd : PciDev) : FlashromPciDevice :=
  { name := lookupName fd
    vendor_id := fd.vendor_id
    device_id := fd.device_id
    pci := fd
    sysfs_path := pci_sysfs_path fd
    mmio := MmioPtr.null
    mmio_size := 0
    enabled := false
    was_disabled := false
    private_data :=
      ((ms.find? fun m =>
          m.vendor_id == fd.vendor_id && m.device_id == fd.device_id).map
        (fun m => m.private_data)).getD 0 }

/-- Result of `flashrom_pci_init`: the returned handle or the NULL
path taken (each NULL path is distinguished by its diagnostic). -/
inductive FlashromPciInitResult where
  | initFailed
  | filterError
  | noSupportedDevice
  | multipleDevices
  | enableFailed
  | ok (h : FlashromPciDevice)

/-- `flashrom_pci_init` (pcidev.c lines 573-670).  `lookupName` models
the `pci_lookup_name` collaborator and `enw` the sysfs enable-file
world consumed by the final `flashrom_pci_device_enable` call.  The
`none` branch of the match is unreachable: a non-zero `found` count
implies `found_dev` was assigned (the C code dereferences `found_dev`
unconditionally there). -/
def flashrom_pci_init (lookupName : PciDev → Option String) (enw : SysfsFile)
    (initOk filterOk : Bool) (filt : PciDev → Bool)
    (ms : List flashrom_pci_match) (devices : List PciDev) : FlashromPciInitResult :=
  if initOk = false then FlashromPciInitResult.initFailed
  else if filterOk = false then FlashromPciInitResult.filterError
  else
    let st := flashrom_resolve filt ms devices
    if st.2 = 0 then FlashromPciInitResult.noSupportedDevice
    else if st.2 > 1 then FlashromPciInitResult.multipleDevices
    else
      match st.1 with
      | none => FlashromPciInitResult.noSupportedDevice
      | some fd =>
        let device := flashrom_mk_device lookupName ms fd
        let er := flashrom_pci_device_enable enw device
        if er.ret ≠ 0 then FlashromPciInitResult.enableFailed
        else FlashromPciInitResult.ok er.dev

/-! ### Characterization of the resolver folds -/

/-- The `found` counter accumulated by a resolver fold counts the
surviving devices. -/
theorem resolve_foldl_snd (q : PciDev → Bool) (l : List PciDev) (o : Option PciDev) (n : Nat) :
    (l.foldl (fun acc dv => if q dv then (some dv, acc.2 + 1) else acc) (o, n)).2 =
      n + (l.filter q).length := by
  induction l generalizing o n with
  | nil => simp
  | cons d t ih =>
    by_cases h : q d
    · simp [List.foldl_cons, h, ih]
      omega
    · simp [List.foldl_cons, h, ih]

/-- The `found_dev` pointer accumulated by a resolver fold is the last
surviving device (or the seed when none survives). -/
theorem resolve_foldl_fst (q : PciDev → Bool) (l : List PciDev) (o : Option PciDev) (n : Nat) :
    (l.foldl (fun acc dv => if q dv then (some dv, acc.2 + 1) else acc) (o, n)).1 =
      if (l.filter q).isEmpty then o else (l.filter q).getLast? := by
  induction l generalizing o n with
  | nil => simp
  | cons d t ih =>
    by_cases h : q d
    · rw [List.foldl_cons, if_pos h, ih, List.filter_cons_of_pos h]
      cases hf : t.filter q with
      | nil => simp
      | cons b tb => simp
    · rw [List.foldl_cons, if_neg h, ih, List.filter_cons_of_neg h]

/-- The nested continue-style conditions of the `pcidev_init` loop
flatten to the single survivor predicate. -/
theorem pcidev_resolve_eq_survivor (plat : Platform) (devs : List dev_entry) (bar : Nat)
    (filt : PciDev → Bool) (devices : List PciDev) :
    pcidev_resolve plat devs bar filt devices =
      devices.foldl
        (fun acc dv =>
          if pcidev_survivor plat devs bar filt dv then (some dv, acc.2 + 1) else acc)
        (none, 0) := by
  unfold pcidev_resolve
  congr 1
  funext acc dv
  unfold pcidev_survivor
  by_cases h1 : filt dv && dev_entry_match devs dv
  · by_cases h2 : (pcidev_readbar plat dv bar).1 = 0
    · simp [h1, h2]
    · simp [h1, h2]
  · simp [h1]

/-- The `flashrom_pci_init` loop condition is its survivor predicate. -/
theorem flashrom_resolve_eq_survivor (filt : PciDev → Bool)
    (ms : List flashrom_pci_match) (devices : List PciDev) :
    flashrom_resolve filt ms devices =
      devices.foldl
        (fun acc dv =>
          if flashrom_survivor filt ms dv then (some dv, acc.2 + 1) else acc)
        (none, 0) := rfl

/-- Outcome of `pcidev_init` as a function of the survivor list. -/
theorem pcidev_init_eq (plat : Platform) (filt : PciDev → Bool) (devs : List dev_entry)
    (bar : Nat) (devices : List PciDev) :
    pcidev_init plat true true filt devs bar devices =
      (if (devices.filter (pcidev_survivor plat devs bar filt)).length = 0 then
         PcidevInitResult.noSupportedDevice
       else if 1 < (devices.filter (pcidev_survivor plat devs bar filt)).length then
         PcidevInitResult.multipleDevices
       else PcidevInitResult.found
         ((devices.filter (pcidev_survivor plat devs bar filt)).getLast?)) := by
  simp only [pcidev_init]
  rw [if_neg (by simp), if_neg (by simp)]
  rw [pcidev_resolve_eq_survivor, resolve_foldl_snd, resolve_foldl_fst, Nat.zero_add]
  by_cases h0 : (devices.filter (pcidev_survivor plat devs bar filt)).length = 0
  · rw [if_pos h0, if_pos h0]
  · rw [if_neg h0, if_neg h0]
    by_cases h1 : 1 < (devices.filter (pcidev_survivor plat devs bar filt)).length
    · rw [if_pos h1, if_pos h1]
    · rw [if_neg h1, if_neg h1]
      have he : (devices.filter (pcidev_survivor plat devs bar filt)).isEmpty = false := by
        cases hf : devices.filter (pcidev_survivor plat devs bar filt) with
        | nil => rw [hf] at h0; simp at h0
        | cons a t => rfl
      simp [he]

/-- Outcome of `flashrom_pci_init` as a function of the survivor list,
the handle constructor and the enable world. -/
theorem flashrom_init_eq (lookupName : PciDev → Option String) (enw : SysfsFile)
    (filt : PciDev → Bool) (ms : List flashrom_pci_match) (devices : List PciDev) :
    flashrom_pci_init lookupName enw true true filt ms devices =
      (if (devices.filter (flashrom_survivor filt ms)).length = 0 then
         FlashromPciInitResult.noSupportedDevice
       else if 1 < (devices.filter (flashrom_survivor filt ms)).length then
         FlashromPciInitResult.multipleDevices
       else
         match (devices.filter (flashrom_survivor filt ms)).getLast? with
         | none => FlashromPciInitResult.noSupportedDevice
         | some fd =>
           if (flashrom_pci_device_enable enw (flashrom_mk_device lookupName ms fd)).ret ≠ 0 then
             FlashromPciInitResult.enableFailed
           else
             FlashromPciInitResult.ok
               (flashrom_pci_device_enable enw (flashrom_mk_device lookupName ms fd)).dev) := by
  simp only [flashrom_pci_init]
  rw [if_neg (by simp), if_neg (by simp)]
  rw [flashrom_resolve_eq_survivor, resolve_foldl_snd, resolve_foldl_fst, Nat.zero_add]
  by_cases h0 : (devices.filter (flashrom_survivor filt ms)).length = 0
  · rw [if_pos h0, if_pos h0]
  · rw [if_neg h0, if_neg h0]
    by_cases h1 : 1 < (devices.filter (flashrom_survivor filt ms)).length
    · rw [if_pos h1, if_pos h1]
    · rw [if_neg h1, if_neg h1]
      have he : (devices.filter (flashrom_survivor filt ms)).isEmpty = false := by
        cases hf : devices.filter (flashrom_survivor filt ms) with
        | nil => rw [hf] at h0; simp at h0
        | cons a t => rfl
      simp [he]

/-- Claim C1 (amended): with the enumeration context initialised and
the location filter parsed, `pcidev_init` returns a device iff exactly
one enumerated device survives the location filter, whitelist and BAR
checks (zero survivors → NULL with the "No supported PCI device found"
diagnostic, several survivors → NULL with the pci=bb:dd.f diagnostic,
never an automatic pick).  `flashrom_pci_init` applies the same
multiplicity policy to its filter and identity checks, but with
exactly one survivor it returns the handle only when the subsequent
device-enable step succeeds; a failed enable returns NULL. -/
theorem c1_resolution_multiplicity (plat : Platform) (filt : PciDev → Bool)
    (devs : List dev_entry) (bar : Nat) (ms : List flashrom_pci_match)
    (lookupName : PciDev → Option String) (enw : SysfsFile)
    (devices : List PciDev) (d : PciDev) :
    (pcidev_init plat true true filt devs bar devices = PcidevInitResult.found (some d) ↔
       devices.filter (pcidev_survivor plat devs bar filt) = [d]) ∧
    (devices.filter (pcidev_survivor plat devs bar filt) = [] →
       pcidev_init plat true true filt devs bar devices =
         PcidevInitResult.noSupportedDevice) ∧
    (1 < (devices.filter (pcidev_survivor plat devs bar filt)).length →
       pcidev_init plat true true filt devs bar devices =
         PcidevInitResult.multipleDevices) ∧
    (devices.filter (flashrom_survivor filt ms) = [d] →
       ((flashrom_pci_device_enable enw (flashrom_mk_device lookupName ms d)).ret = 0 →
          flashrom_pci_init lookupName enw true true filt ms devices =
            FlashromPciInitResult.ok
              (flashrom_pci_device_enable enw (flashrom_mk_device lookupName ms d)).dev) ∧
       ((flashrom_pci_device_enable enw (flashrom_mk_device lookupName ms d)).ret ≠ 0 →
          flashrom_pci_init lookupName enw true true filt ms devices =
            FlashromPciInitResult.enableFailed)) ∧
    (devices.filter (flashrom_survivor filt ms) = [] →
       flashrom_pci_init lookupName enw true true filt ms devices =
         FlashromPciInitResult.noSupportedDevice) ∧
    (1 < (devices.filter (flashrom_survivor filt ms)).length →
       flashrom_pci_init lookupName enw true true filt ms devices =
         FlashromPciInitResult.multipleDevices) := by
  rw [pcidev_init_eq, flashrom_init_eq]
  refine ⟨?_, ?_, ?_, ?_, ?_, ?_⟩
  · cases hF : devices.filter (pcidev_survivor plat devs bar filt) with
    | nil => simp
    | cons a t =>
      cases t with
      | nil => simp
      | cons b tb => simp
  · intro hF
    rw [hF]
    simp
  · intro hlen
    rw [if_neg (by omega), if_pos hlen]
  · intro hF
    rw [hF]
    simp only [List.length_cons, List.length_nil, List.getLast?_singleton]
    rw [if_neg (by norm_num), if_neg (by norm_num)]
    constructor
    · intro h
      rw [if_neg (by simp [h])]
    · intro h
      rw [if_pos h]
  · intro hF
    rw [hF]
    simp
  · intro hlen
    rw [if_neg (by omega), if_pos hlen]

/-- A flashrom match entry for the witness device. -/
def matchW : flashrom_pci_match :=
  { vendor_id := 0x8086, device_id := 0x1234, status := 0, private_data := 7 }

/-- A whitelist entry for the witness device. -/
def entryW : dev_entry := { vendor_id := 0x8086, device_id := 0x1234, status := 0 }

/-- An enable-file world whose `open` fails with EACCES. -/
def file_denied : SysfsFile :=
  { openOk := false, openErrno := 13, readOk := true, readErrno := 0,
    content := '0', writeOk := true, writeErrno := 0 }

/-- A healthy enable-file world currently reading '0' (disabled). -/
def fileW : SysfsFile :=
  { openOk := true, openErrno := 0, readOk := true, readErrno := 0,
    content := '0', writeOk := true, writeErrno := 0 }

/-- Counterexample to C1 as stated: exactly one enumerated device
survives the `flashrom_pci_init` location and identity checks, yet the
function returns NULL because enabling the device fails (the sysfs
enable file cannot be opened), refuting the claimed "returns a device
if ... exactly one enumerated device survives". -/
theorem c1_cex_enable_failure :
    [dev_mem64].filter (flashrom_survivor (fun _ => true) [matchW]) = [dev_mem64] ∧
    flashrom_pci_init (fun _ => none) file_denied true true (fun _ => true) [matchW]
        [dev_mem64] = FlashromPciInitResult.enableFailed := by
  constructor
  · rfl
  · rfl

/-- Claim C7: enable→disable round trip.  With a working sysfs world:
a handle whose enable file reads '0' is enabled by writing '1' with
`was_disabled` recorded, and a subsequent disable writes '0' back; a
handle acquired already enabled ('1') is never written by disable;
enable on an already-enabled handle, and disable on a handle that is
not both enabled and originally-disabled, are no-op successes. -/
theorem c7_enable_disable_roundtrip (f : SysfsFile) (d : FlashromPciDevice)
    (hopen : f.openOk = true) (hread : f.readOk = true) (hwrite : f.writeOk = true) :
    (d.enabled = false → f.content = '0' →
       (flashrom_pci_device_enable f d).ret = 0 ∧
       (flashrom_pci_device_enable f d).writes = ['1'] ∧
       (flashrom_pci_device_enable f d).dev.enabled = true ∧
       (flashrom_pci_device_enable f d).dev.was_disabled = true ∧
       (flashrom_pci_device_enable f d).file.content = '1' ∧
       (flashrom_pci_device_disable (flashrom_pci_device_enable f d).file
          (flashrom_pci_device_enable f d).dev).ret = 0 ∧
       (flashrom_pci_device_disable (flashrom_pci_device_enable f d).file
          (flashrom_pci_device_enable f d).dev).writes = ['0'] ∧
       (flashrom_pci_device_disable (flashrom_pci_device_enable f d).file
          (flashrom_pci_device_enable f d).dev).file.content = '0' ∧
       (flashrom_pci_device_disable (flashrom_pci_device_enable f d).file
          (flashrom_pci_device_enable f d).dev).dev.enabled = false) ∧
    (d.enabled = false → d.was_disabled = false → f.content = '1' →
       (flashrom_pci_device_enable f d).ret = 0 ∧
       (flashrom_pci_device_enable f d).writes = [] ∧
       (flashrom_pci_device_enable f d).dev.enabled = true ∧
       (flashrom_pci_device_enable f d).dev.was_disabled = false ∧
       (flashrom_pci_device_disable (flashrom_pci_device_enable f d).file
          (flashrom_pci_device_enable f d).dev).ret = 0 ∧
       (flashrom_pci_device_disable (flashrom_pci_device_enable f d).file
          (flashrom_pci_device_enable f d).dev).writes = []) ∧
    (d.enabled = true →
       flashrom_pci_device_enable f d = { ret := 0, dev := d, file := f, writes := [] }) ∧
    (d.enabled = false ∨ d.was_disabled = false →
       flashrom_pci_device_disable f d = { ret := 0, dev := d, file := f, writes := [] }) := by
  refine ⟨?_, ?_, ?_, ?_⟩
  · intro hen hc
    simp [flashrom_pci_device_enable, flashrom_pci_device_disable,
          hen, hc, hopen, hread, hwrite]
  · intro hen hwd hc
    simp [flashrom_pci_device_enable, flashrom_pci_device_disable,
          hen, hwd, hc, hopen, hread, hwrite]
  · intro hen
    simp [flashrom_pci_device_enable, hen]
  · intro hcond
    rw [flashrom_pci_device_disable, if_pos hcond]

/-- A freshly acquired, not yet enabled handle for witnesses. -/
def handleW : FlashromPciDevice :=
  { name := none, vendor_id := 0x8086, device_id := 0x1234, pci := dev_mem64,
    sysfs_path := "/sys/bus/pci/devices/0:0:3.0/", mmio := MmioPtr.null,
    mmio_size := 0, enabled := false, was_disabled := false, private_data := 0 }

/-- Witness for C7 at a concrete healthy world and fresh handle. -/
theorem c7_enable_disable_roundtrip_witness :
    (handleW.enabled = false → fileW.content = '0' →
       (flashrom_pci_device_enable fileW handleW).ret = 0 ∧
       (flashrom_pci_device_enable fileW handleW).writes = ['1'] ∧
       (flashrom_pci_device_enable fileW handleW).dev.enabled = true ∧
       (flashrom_pci_device_enable fileW handleW).dev.was_disabled = true ∧
       (flashrom_pci_device_enable fileW handleW).file.content = '1' ∧
       (flashrom_pci_device_disable (flashrom_pci_device_enable fileW handleW).file
          (flashrom_pci_device_enable fileW handleW).dev).ret = 0 ∧
       (flashrom_pci_device_disable (flashrom_pci_device_enable fileW handleW).file
          (flashrom_pci_device_enable fileW handleW).dev).writes = ['0'] ∧
       (flashrom_pci_device_disable (flashrom_pci_device_enable fileW handleW).file
          (flashrom_pci_device_enable fileW handleW).dev).file.content = '0' ∧
       (flashrom_pci_device_disable (flashrom_pci_device_enable fileW handleW).file
          (flashrom_pci_device_enable fileW handleW).dev).dev.enabled = false) ∧
    (handleW.enabled = false → handleW.was_disabled = false → fileW.content = '1' →
       (flashrom_pci_device_enable fileW handleW).ret = 0 ∧
       (flashrom_pci_device_enable fileW handleW).writes = [] ∧
       (flashrom_pci_device_enable fileW handleW).dev.enabled = true ∧
       (flashrom_pci_device_enable fileW handleW).dev.was_disabled = false ∧
       (flashrom_pci_device_disable (flashrom_pci_device_enable fileW handleW).file
          (flashrom_pci_device_enable fileW handleW).dev).ret = 0 ∧
       (flashrom_pci_device_disable (flashrom_pci_device_enable fileW handleW).file
          (flashrom_pci_device_enable fileW handleW).dev).writes = []) ∧
    (handleW.enabled = true →
       flashrom_pci_device_enable fileW handleW =
         { ret := 0, dev := handleW, file := fileW, writes := [] }) ∧
    (handleW.enabled = false ∨ handleW.was_disabled = false →
       flashrom_pci_device_disable fileW handleW =
         { ret := 0, dev := handleW, file := fileW, writes := [] }) :=
  c7_enable_disable_roundtrip fileW handleW rfl rfl rfl

/-- Claim C9: in `pcidev_init`, a whitelisted, location-matching
device is counted as a survivor exactly when `pcidev_readbar` yields a
non-zero address; with a zero classified address it is silently
excluded, leaving both the match count and the overall resolution
outcome as if the device were absent. -/
theorem c9_zero_bar_excluded (plat : Platform) (filt : PciDev → Bool)
    (devs : List dev_entry) (bar : Nat) (initOk filterOk : Bool)
    (pre post : List PciDev) (d : PciDev)
    (hf : filt d = true) (hw : dev_entry_match devs d = true) :
    ((pcidev_resolve plat devs bar filt (pre ++ d :: post)).2 =
       (pcidev_resolve plat devs bar filt (pre ++ post)).2 +
         (if (pcidev_readbar plat d bar).1 ≠ 0 then 1 else 0)) ∧
    ((pcidev_readbar plat d bar).1 = 0 →
       pcidev_init plat initOk filterOk filt devs bar (pre ++ d :: post) =
         pcidev_init plat initOk filterOk filt devs bar (pre ++ post)) := by
  have hq : pcidev_survivor plat devs bar filt d =
      decide ((pcidev_readbar plat d bar).1 ≠ 0) := by
    simp [pcidev_survivor, hf, hw]
  constructor
  · rw [pcidev_resolve_eq_survivor, pcidev_resolve_eq_survivor,
        resolve_foldl_snd, resolve_foldl_snd, Nat.zero_add, Nat.zero_add,
        List.filter_append, List.filter_append, List.filter_cons]
    by_cases hr : (pcidev_readbar plat d bar).1 ≠ 0
    · have hq2 : pcidev_survivor plat devs bar filt d = true := by rw [hq]; simp [hr]
      rw [hq2, if_pos rfl, if_pos hr]
      simp [List.length_append]
      omega
    · have hq2 : pcidev_survivor plat devs bar filt d = false := by rw [hq]; simp [hr]
      rw [hq2, if_neg (by simp), if_neg hr]
      simp
  · intro h0
    have hq2 : pcidev_survivor plat devs bar filt d = false := by rw [hq]; simp [h0]
    have hfil : (pre ++ d :: post).filter (pcidev_survivor plat devs bar filt) =
        (pre ++ post).filter (pcidev_survivor plat devs bar filt) := by
      rw [List.filter_append, List.filter_append, List.filter_cons_of_neg (by simp [hq2])]
    have hre : pcidev_resolve plat devs bar filt (pre ++ d :: post) =
        pcidev_resolve plat devs bar filt (pre ++ post) := by
      rw [pcidev_resolve_eq_survivor, pcidev_resolve_eq_survivor]
      apply Prod.ext
      · rw [resolve_foldl_fst, resolve_foldl_fst, hfil]
      · rw [resolve_foldl_snd, resolve_foldl_snd, hfil]
    simp only [pcidev_init, hre]

/-- A whitelisted device whose BAR0 classifies to address zero. -/
def dev_zerobar : PciDev :=
  { vendor_id := 0x8086, device_id := 0x1234, domain := 0, bus := 0, dev := 4, func := 0,
    config_byte := fun _ => 0, config_word := fun _ => PCI_COMMAND_MEMORY,
    config_long := fun _ => 0, size := fun _ => 0 }

/-- Witness for C9 at a concrete zero-BAR whitelisted device. -/
theorem c9_zero_bar_excluded_witness :
    ((pcidev_resolve plat64 [entryW] PCI_BASE_ADDRESS_0 (fun _ => true)
        ([] ++ dev_zerobar :: [])).2 =
       (pcidev_resolve plat64 [entryW] PCI_BASE_ADDRESS_0 (fun _ => true) ([] ++ [])).2 +
         (if (pcidev_readbar plat64 dev_zerobar PCI_BASE_ADDRESS_0).1 ≠ 0 then 1 else 0)) ∧
    ((pcidev_readbar plat64 dev_zerobar PCI_BASE_ADDRESS_0).1 = 0 →
       pcidev_init plat64 true true (fun _ => true) [entryW] PCI_BASE_ADDRESS_0
           ([] ++ dev_zerobar :: []) =
         pcidev_init plat64 true true (fun _ => true) [entryW] PCI_BASE_ADDRESS_0
           ([] ++ [])) :=
  c9_zero_bar_excluded plat64 (fun _ => true) [entryW] PCI_BASE_ADDRESS_0 true true
    [] [] dev_zerobar rfl (by decide)

/-! ### Resource mapper: `flashrom_pci_mmio_map` (pcidev.c lines 366-411) -/

/-- Outcome world for one mapping attempt: whether opening
`<sysfs>/resource<N>` succeeds, whether `mmap` succeeds, the `errno`
each failure carries, and the memory a successful mapping exposes. -/
structure MapWorld where
  openOk : Bool
  openErrno : Nat
  mmapOk : Bool
  mmapErrno : Nat
  mmapMem : Nat → Nat

/-- File-system side effects performed by `flashrom_pci_mmio_map`. -/
inductive IoEvent where
  | openResource (bar : Nat)
  | mmapAttempt
  deriving DecidableEq

/-- `flashrom_pci_mmio_map` (pcidev.c lines 366-411): reject BAR
indices outside 0-5 with EINVAL before any file I/O; treat a handle
with a non-null `mmio` as already mapped (no-op success when the
recorded size equals the declared size, EALREADY otherwise); otherwise
open the resource file, record the declared size, and map.  On `mmap`
failure the C code leaves `device->mmio` holding `MAP_FAILED` and
resets `mmio_size` to 0 before returning `errno`. -/
def flashrom_pci_mmio_map (w : MapWorld) (d : FlashromPciDevice) (bar : Int) :
    Nat × FlashromPciDevice × List IoEvent :=
  if bar < 0 ∨ bar > 5 then (EINVAL, d, [])
  else
    match d.mmio with
    | MmioPtr.null =>
      if w.openOk = false then (w.openErrno, d, [IoEvent.openResource bar.toNat])
      else
        let d1 := { d with mmio_size := d.pci.size bar.toNat }
        if w.mmapOk = false then
          (w.mmapErrno, { d1 with mmio := MmioPtr.mapFailed, mmio_size := 0 },
           [IoEvent.openResource bar.toNat, IoEvent.mmapAttempt])
        else
          (0, { d1 with mmio := MmioPtr.mapped w.mmapMem },
           [IoEvent.openResource bar.toNat, IoEvent.mmapAttempt])
    | _ =>
      if d.pci.size bar.toNat ≠ d.mmio_size then (EALREADY, d, [])
      else (0, d, [])

/-! ### MMIO accessors (pcidev.c lines 680-763) -/

/-- One access to the memory behind `device->mmio`.  The byte
accessors touch single bytes; the long accessors perform single
32-bit-wide volatile accesses. -/
inductive MemOp where
  | read8 (addr : Nat)
  | write8 (addr : Nat) (value : Nat)
  | read32 (addr : Nat)
  | write32 (addr : Nat) (value : Nat)
  deriving DecidableEq

/-- The mapped region an accessor operates on: the byte memory behind
the handle's `mmio` pointer plus the recorded `mmio_size`.  The C
accessors consult nothing else of the handle; dereferencing an
unmapped pointer is undefined behaviour and outside the model. -/
structure MmioSpace where
  mem : Nat → Nat
  mmio_size : Nat

/-- 32-bit little-endian load composed from the byte memory. -/
def load32 (mem : Nat → Nat) (a : Nat) : Nat :=
  mem a % 2 ^ 8 + (mem (a + 1) % 2 ^ 8) * 2 ^ 8 +
    (mem (a + 2) % 2 ^ 8) * 2 ^ 16 + (mem (a + 3) % 2 ^ 8) * 2 ^ 24

/-- 32-bit little-endian store into the byte memory. -/
def store32 (mem : Nat → Nat) (a v : Nat) : Nat → Nat :=
  fun x =>
    if x = a then v % 2 ^ 8
    else if x = a + 1 then v / 2 ^ 8 % 2 ^ 8
    else if x = a + 2 then v / 2 ^ 16 % 2 ^ 8
    else if x = a + 3 then v / 2 ^ 24 % 2 ^ 8
    else mem x

/-- `flashrom_pci_mmio_byte_read` (pcidev.c lines 680-689).  Returns
the value read — `(uint8_t)-1 = 0xff` on the error path — the errno
after the call, and the memory accesses performed. -/
def flashrom_pci_mmio_byte_read (d : MmioSpace) (errno address : Nat) :
    Nat × Nat × List MemOp :=
  if d.mmio_size ≤ address then (0xff, EFAULT, [])
  else (d.mem address % 2 ^ 8, errno, [MemOp.read8 address])

/-- `flashrom_pci_mmio_byte_write` (pcidev.c lines 691-700). -/
def flashrom_pci_mmio_byte_write (d : MmioSpace) (errno address value : Nat) :
    MmioSpace × Nat × List MemOp :=
  if d.mmio_size ≤ address then (d, EFAULT, [])
  else
    ({ d with mem := fun a => if a = address then value % 2 ^ 8 else d.mem a },
     errno, [MemOp.write8 address (value % 2 ^ 8)])

/-- `flashrom_pci_mmio_byte_mask` (pcidev.c lines 702-718): bounds
check, then read-modify-write with `temp = mem & ~mask` and
`temp |= (value & mask) & mask` (the C masks `value` twice); `~mask`
on a byte operand is `0xff ^^^ mask`. -/
def flashrom_pci_mmio_byte_mask (d : MmioSpace) (errno address value mask : Nat) :
    MmioSpace × Nat × List MemOp :=
  if d.mmio_size ≤ address then (d, EFAULT, [])
  else
    let value2 := (value % 2 ^ 8) &&& (mask % 2 ^ 8)
    let temp := (d.mem address % 2 ^ 8) &&& (0xff ^^^ (mask % 2 ^ 8))
    let temp2 := temp ||| (value2 &&& (mask % 2 ^ 8))
    ({ d with mem := fun a => if a = address then temp2 else d.mem a },
     errno, [MemOp.read8 address, MemOp.write8 address temp2])

/-- `flashrom_pci_mmio_long_read` (pcidev.c lines 720-731): bounds and
4-byte-alignment check; `(uint32_t)-1 = 0xffffffff` on the error
path. -/
def flashrom_pci_mmio_long_read (d : MmioSpace) (errno address : Nat) :
    Nat × Nat × List MemOp :=
  if d.mmio_size ≤ address ∨ address &&& 0x3 ≠ 0 then (0xffffffff, EFAULT, [])
  else (load32 d.mem address, errno, [MemOp.read32 address])

/-- `flashrom_pci_mmio_long_write` (pcidev.c lines 733-744). -/
def flashrom_pci_mmio_long_write (d : MmioSpace) (errno address value : Nat) :
    MmioSpace × Nat × List MemOp :=
  if d.mmio_size ≤ address ∨ address &&& 0x3 ≠ 0 then (d, EFAULT, [])
  else
    ({ d with mem := store32 d.mem address (value % 2 ^ 32) },
     errno, [MemOp.write32 address (value % 2 ^ 32)])

/-- `flashrom_pci_mmio_long_mask` (pcidev.c lines 746-763): bounds and
alignment check, then a single 32-bit read-modify-write. -/
def flashrom_pci_mmio_long_mask (d : MmioSpace) (errno address value mask : Nat) :
    MmioSpace × Nat × List MemOp :=
  if d.mmio_size ≤ address ∨ address &&& 0x3 ≠ 0 then (d, EFAULT, [])
  else
    let value2 := (value % 2 ^ 32) &&& (mask % 2 ^ 32)
    let temp := load32 d.mem address &&& (0xffffffff ^^^ (mask % 2 ^ 32))
    let temp2 := temp ||| (value2 &&& (mask % 2 ^ 32))
    ({ d with mem := store32 d.mem address temp2 },
     errno, [MemOp.read32 address, MemOp.write32 address temp2])

/-- Loading back a just-stored 32-bit value yields the value modulo
`2^32`. -/
theorem load32_store32 (mem : Nat → Nat) (a v : Nat) :
    load32 (store32 mem a v) a = v % 2 ^ 32 := by
  unfold load32 store32
  have h1 : ¬(a + 1 = a) := by omega
  have h2 : ¬(a + 2 = a) := by omega
  have h3 : ¬(a + 3 = a) := by omega
  have h4 : ¬(a + 2 = a + 1) := by omega
  have h5 : ¬(a + 3 = a + 1) := by omega
  have h6 : ¬(a + 3 = a + 2) := by omega
  simp [h1, h2, h3, h4, h5, h6]
  omega

/-- A 32-bit load is below `2^32`. -/
theorem load32_lt (mem : Nat → Nat) (a : Nat) : load32 mem a < 2 ^ 32 := by
  unfold load32
  have b0 : mem a % 2 ^ 8 < 2 ^ 8 := Nat.mod_lt _ (by norm_num)
  have b1 : mem (a + 1) % 2 ^ 8 < 2 ^ 8 := Nat.mod_lt _ (by norm_num)
  have b2 : mem (a + 2) % 2 ^ 8 < 2 ^ 8 := Nat.mod_lt _ (by norm_num)
  have b3 : mem (a + 3) % 2 ^ 8 < 2 ^ 8 := Nat.mod_lt _ (by norm_num)
  omega

/-- Claim C5: every MMIO accessor bounds-checks the address against
the recorded `mmio_size`, the word accessors additionally require
4-byte alignment (`address &&& 3`, i.e. `address % 4`), and on a
failed check the operation sets errno to EFAULT and performs no memory
access, leaving the region unchanged. -/
theorem c5_mmio_bounds_alignment (d : MmioSpace) (errno address value mask : Nat) :
    (d.mmio_size ≤ address →
       flashrom_pci_mmio_byte_read d errno address = (0xff, EFAULT, []) ∧
       flashrom_pci_mmio_byte_write d errno address value = (d, EFAULT, []) ∧
       flashrom_pci_mmio_byte_mask d errno address value mask = (d, EFAULT, [])) ∧
    (d.mmio_size ≤ address ∨ address &&& 0x3 ≠ 0 →
       flashrom_pci_mmio_long_read d errno address = (0xffffffff, EFAULT, []) ∧
       flashrom_pci_mmio_long_write d errno address value = (d, EFAULT, []) ∧
       flashrom_pci_mmio_long_mask d errno address value mask = (d, EFAULT, [])) ∧
    (address &&& 0x3 = address % 4) := by
  refine ⟨?_, ?_, ?_⟩
  · intro h
    refine ⟨?_, ?_, ?_⟩
    · unfold flashrom_pci_mmio_byte_read
      rw [if_pos h]
    · unfold flashrom_pci_mmio_byte_write
      rw [if_pos h]
    · unfold flashrom_pci_mmio_byte_mask
      rw [if_pos h]
  · intro h
    refine ⟨?_, ?_, ?_⟩
    · unfold flashrom_pci_mmio_long_read
      rw [if_pos h]
    · unfold flashrom_pci_mmio_long_write
      rw [if_pos h]
    · unfold flashrom_pci_mmio_long_mask
      rw [if_pos h]
  · have h := Nat.and_pow_two_sub_one_eq_mod address 2
    norm_num at h
    exact h

/-- Claim C6: an in-range (and, for the word variant, aligned) masked
MMIO update stores `(current &&& ~mask) ||| (value &&& mask)` and
performs exactly one read and one write of the underlying location. -/
theorem c6_mmio_masked_rmw (d : MmioSpace) (errno address value mask lvalue lmask : Nat)
    (hv : value < 2 ^ 8) (hm : mask < 2 ^ 8)
    (hlv : lvalue < 2 ^ 32) (hlm : lmask < 2 ^ 32) :
    (address < d.mmio_size →
       (flashrom_pci_mmio_byte_mask d errno address value mask).1.mem address =
         ((d.mem address % 2 ^ 8) &&& (0xff ^^^ mask)) ||| (value &&& mask) ∧
       (flashrom_pci_mmio_byte_mask d errno address value mask).2.2 =
         [MemOp.read8 address,
          MemOp.write8 address
            (((d.mem address % 2 ^ 8) &&& (0xff ^^^ mask)) ||| (value &&& mask))]) ∧
    (address < d.mmio_size → address &&& 0x3 = 0 →
       load32 (flashrom_pci_mmio_long_mask d errno address lvalue lmask).1.mem address =
         ((load32 d.mem address &&& (0xffffffff ^^^ lmask)) ||| (lvalue &&& lmask)) ∧
       (flashrom_pci_mmio_long_mask d errno address lvalue lmask).2.2 =
         [MemOp.read32 address,
          MemOp.write32 address
            ((load32 d.mem address &&& (0xffffffff ^^^ lmask)) ||| (lvalue &&& lmask))]) := by
  have hv8 : value % 2 ^ 8 = value := Nat.mod_eq_of_lt hv
  have hm8 : mask % 2 ^ 8 = mask := Nat.mod_eq_of_lt hm
  have hlv32 : lvalue % 2 ^ 32 = lvalue := Nat.mod_eq_of_lt hlv
  have hlm32 : lmask % 2 ^ 32 = lmask := Nat.mod_eq_of_lt hlm
  constructor
  · intro hin
    unfold flashrom_pci_mmio_byte_mask
    rw [if_neg (by omega)]
    rw [hv8, hm8]
    constructor
    · simp [Nat.and_assoc]
    · simp [Nat.and_assoc]
  · intro hin hal
    have hcond : ¬(d.mmio_size ≤ address ∨ address &&& 0x3 ≠ 0) := by
      push_neg
      exact ⟨by omega, hal⟩
    unfold flashrom_pci_mmio_long_mask
    rw [if_neg hcond]
    rw [hlv32, hlm32]
    have hlt : ((load32 d.mem address &&& (0xffffffff ^^^ lmask)) |||
        ((lvalue &&& lmask) &&& lmask)) < 2 ^ 32 := by
      apply Nat.or_lt_two_pow
      · exact lt_of_le_of_lt Nat.and_le_left (load32_lt d.mem address)
      · exact lt_of_le_of_lt Nat.and_le_right hlm
    constructor
    · simp only []
      rw [load32_store32, Nat.mod_eq_of_lt hlt, Nat.and_assoc, Nat.and_self]
    · simp [Nat.and_assoc]

/-- Claim C10: a failed bounds/alignment check makes
`flashrom_pci_mmio_byte_read` return `0xff` and
`flashrom_pci_mmio_long_read` return `0xffffffff` (the error value -1
truncated to the return width) with errno set to EFAULT — the same
values an in-range read of an all-ones register returns with errno
untouched, so only errno distinguishes the two. -/
theorem c10_mmio_read_error_values (d : MmioSpace) (errno address : Nat) :
    (d.mmio_size ≤ address →
       flashrom_pci_mmio_byte_read d errno address = (0xff, EFAULT, [])) ∧
    (d.mmio_size ≤ address ∨ address &&& 0x3 ≠ 0 →
       flashrom_pci_mmio_long_read d errno address = (0xffffffff, EFAULT, [])) ∧
    (address < d.mmio_size → d.mem address % 2 ^ 8 = 0xff →
       flashrom_pci_mmio_byte_read d errno address = (0xff, errno, [MemOp.read8 address])) ∧
    (address < d.mmio_size → address &&& 0x3 = 0 → load32 d.mem address = 0xffffffff →
       flashrom_pci_mmio_long_read d errno address =
         (0xffffffff, errno, [MemOp.read32 address])) := by
  refine ⟨?_, ?_, ?_, ?_⟩
  · intro h
    unfold flashrom_pci_mmio_byte_read
    rw [if_pos h]
  · intro h
    unfold flashrom_pci_mmio_long_read
    rw [if_pos h]
  · intro hin hmem
    unfold flashrom_pci_mmio_byte_read
    rw [if_neg (by omega), hmem]
  · intro hin hal hmem
    unfold flashrom_pci_mmio_long_read
    rw [if_neg (by push_neg; exact ⟨by omega, hal⟩), hmem]

/-- Claim C8: `flashrom_pci_mmio_map` rejects a BAR index outside 0-5
with EINVAL before performing any file I/O; on an already-mapped
handle (non-null `mmio`) it is a no-op success when the recorded size
equals the declared size for that BAR, and an EALREADY conflict that
leaves the existing mapping in place when the sizes mismatch. -/
theorem c8_mmio_map_guards (w : MapWorld) (d : FlashromPciDevice) (bar : Int) :
    (bar < 0 ∨ bar > 5 → flashrom_pci_mmio_map w d bar = (EINVAL, d, [])) ∧
    (0 ≤ bar → bar ≤ 5 → d.mmio ≠ MmioPtr.null →
       (d.pci.size bar.toNat = d.mmio_size →
          flashrom_pci_mmio_map w d bar = (0, d, [])) ∧
       (d.pci.size bar.toNat ≠ d.mmio_size →
          flashrom_pci_mmio_map w d bar = (EALREADY, d, []))) := by
  constructor
  · intro h
    unfold flashrom_pci_mmio_map
    rw [if_pos h]
  · intro h0 h5 hnn
    unfold flashrom_pci_mmio_map
    rw [if_neg (by omega)]
    cases hptr : d.mmio with
    | null => exact absurd hptr hnn
    | mapFailed =>
      constructor
      · intro hsz
        simp [hsz]
      · intro hsz
        simp [hsz]
    | mapped mem =>
      constructor
      · intro hsz
        simp [hsz]
      · intro hsz
        simp [hsz]

/-- Claim C4 (amended): with a valid BAR index and an unmapped handle,
a failed open of the resource file aborts `flashrom_pci_mmio_map` with
the OS error code and leaves the handle untouched; a failed `mmap`
aborts with the OS error code and leaves `mmio_size` zero, but records
the `MAP_FAILED` sentinel — a non-null value — in the handle's `mmio`
field (later operations guard against this sentinel); a successful
call records the mapping and the declared size. -/
theorem c4_mmio_map_failure_state (w : MapWorld) (d : FlashromPciDevice) (bar : Int)
    (h0 : 0 ≤ bar) (h5 : bar ≤ 5) (hnull : d.mmio = MmioPtr.null) :
    (w.openOk = false →
       flashrom_pci_mmio_map w d bar =
         (w.openErrno, d, [IoEvent.openResource bar.toNat])) ∧
    (w.openOk = true → w.mmapOk = false →
       flashrom_pci_mmio_map w d bar =
         (w.mmapErrno, { d with mmio := MmioPtr.mapFailed, mmio_size := 0 },
          [IoEvent.openResource bar.toNat, IoEvent.mmapAttempt])) ∧
    (w.openOk = true → w.mmapOk = true →
       flashrom_pci_mmio_map w d bar =
         (0, { d with mmio := MmioPtr.mapped w.mmapMem,
                      mmio_size := d.pci.size bar.toNat },
          [IoEvent.openResource bar.toNat, IoEvent.mmapAttempt])) := by
  refine ⟨?_, ?_, ?_⟩
  · intro hopen
    unfold flashrom_pci_mmio_map
    rw [if_neg (by omega), hnull]
    simp [hopen]
  · intro hopen hmmap
    unfold flashrom_pci_mmio_map
    rw [if_neg (by omega), hnull]
    simp [hopen, hmmap]
  · intro hopen hmmap
    unfold flashrom_pci_mmio_map
    rw [if_neg (by omega), hnull]
    simp [hopen, hmmap]

/-- A world where `open` succeeds but `mmap` fails with ENOMEM. -/
def mapw_mmap_fails : MapWorld :=
  { openOk := true, openErrno := 0, mmapOk := false, mmapErrno := 12, mmapMem := fun _ => 0 }

/-- A world where `open` fails with EACCES. -/
def mapw_open_fails : MapWorld :=
  { openOk := false, openErrno := 13, mmapOk := true, mmapErrno := 0, mmapMem := fun _ => 0 }

/-- A world where both `open` and `mmap` succeed. -/
def mapw_ok : MapWorld :=
  { openOk := true, openErrno := 0, mmapOk := true, mmapErrno := 0, mmapMem := fun _ => 0 }

/-- Counterexample to C4 as stated: after a failed `mmap`, the
handle's `mmio` field holds the non-null `MAP_FAILED` sentinel — not a
null pointer — even though `mmio_size` is reset to zero and the OS
error code (ENOMEM = 12) is returned. -/
theorem c4_cex_map_failed_pointer_recorded :
    (flashrom_pci_mmio_map mapw_mmap_fails handleW 0).2.1.mmio = MmioPtr.mapFailed ∧
    MmioPtr.mapFailed ≠ MmioPtr.null ∧
    (flashrom_pci_mmio_map mapw_mmap_fails handleW 0).2.1.mmio_size = 0 ∧
    (flashrom_pci_mmio_map mapw_mmap_fails handleW 0).1 = 12 := by
  refine ⟨rfl, fun h => MmioPtr.noConfusion h, rfl, rfl⟩

/-- Witness for C4 at concrete failing worlds. -/
theorem c4_mmio_map_failure_state_witness :
    flashrom_pci_mmio_map mapw_open_fails handleW 0 =
      (mapw_open_fails.openErrno, handleW, [IoEvent.openResource (0 : Int).toNat]) ∧
    flashrom_pci_mmio_map mapw_mmap_fails handleW 0 =
      (mapw_mmap_fails.mmapErrno,
       { handleW with mmio := MmioPtr.mapFailed, mmio_size := 0 },
       [IoEvent.openResource (0 : Int).toNat, IoEvent.mmapAttempt]) :=
  ⟨(c4_mmio_map_failure_state mapw_open_fails handleW 0 (by decide) (by decide) rfl).1 rfl,
   (c4_mmio_map_failure_state mapw_mmap_fails handleW 0 (by decide) (by decide) rfl).2.1
     rfl rfl⟩

/-- An already-mapped handle whose recorded size matches BAR0. -/
def handle_mapped : FlashromPciDevice :=
  { handleW with mmio := MmioPtr.mapped (fun _ => 0xa0), mmio_size := 0x1000 }

/-- An already-mapped handle whose recorded size mismatches BAR0. -/
def handle_stale : FlashromPciDevice :=
  { handleW with mmio := MmioPtr.mapped (fun _ => 0xa0), mmio_size := 0x800 }

/-- Witness for C8 at concrete handles. -/
theorem c8_mmio_map_guards_witness :
    flashrom_pci_mmio_map mapw_ok handle_mapped 6 = (EINVAL, handle_mapped, []) ∧
    flashrom_pci_mmio_map mapw_ok handle_mapped 0 = (0, handle_mapped, []) ∧
    flashrom_pci_mmio_map mapw_ok handle_stale 0 = (EALREADY, handle_stale, []) :=
  ⟨(c8_mmio_map_guards mapw_ok handle_mapped 6).1 (Or.inr (by decide)),
   ((c8_mmio_map_guards mapw_ok handle_mapped 0).2 (by decide) (by decide)
      (by simp [handle_mapped])).1 rfl,
   ((c8_mmio_map_guards mapw_ok handle_stale 0).2 (by decide) (by decide)
      (by simp [handle_stale])).2 (by decide)⟩

/-- The memory region used by the accessor witnesses: 16 mapped bytes
all holding 0xa0. -/
def spaceW : MmioSpace := { mem := fun _ => 0xa0, mmio_size := 0x10 }

/-- A mapped region whose bytes all hold 0xff. -/
def spaceFF : MmioSpace := { mem := fun _ => 0xff, mmio_size := 0x10 }

/-- Witness for C5: an out-of-range byte write and a misaligned word
write both fail with EFAULT, leave the region untouched and perform no
memory access. -/
theorem c5_mmio_bounds_alignment_witness :
    spaceW.mmio_size ≤ 0x20 ∧
    flashrom_pci_mmio_byte_write spaceW 0 0x20 0x55 = (spaceW, EFAULT, []) ∧
    (2 : Nat) &&& 0x3 ≠ 0 ∧
    flashrom_pci_mmio_long_write spaceW 0 2 0x12345678 = (spaceW, EFAULT, []) :=
  ⟨by decide,
   ((c5_mmio_bounds_alignment spaceW 0 0x20 0x55 0).1 (by decide)).2.1,
   by decide,
   ((c5_mmio_bounds_alignment spaceW 0 2 0x12345678 0).2.1 (Or.inr (by decide))).2.1⟩

/-- Witness for C6 at the spec's example: masking value 0xff with mask
0x0f into a byte holding 0xa0 stores 0xaf, with one read and one
write. -/
theorem c6_mmio_masked_rmw_witness :
    (0 < spaceW.mmio_size ∧ 0xff < 2 ^ 8 ∧ 0x0f < 2 ^ 8) ∧
    (flashrom_pci_mmio_byte_mask spaceW 0 0 0xff 0x0f).1.mem 0 = 0xaf ∧
    (flashrom_pci_mmio_byte_mask spaceW 0 0 0xff 0x0f).2.2 =
      [MemOp.read8 0, MemOp.write8 0 0xaf] := by
  refine ⟨by decide, ?_, ?_⟩
  · have h := (c6_mmio_masked_rmw spaceW 0 0 0xff 0x0f 0 0 (by decide) (by decide)
      (by decide) (by decide)).1 (by decide)
    rw [h.1]
    decide
  · have h := (c6_mmio_masked_rmw spaceW 0 0 0xff 0x0f 0 0 (by decide) (by decide)
      (by decide) (by decide)).1 (by decide)
    rw [h.2]
    decide

/-- Witness for C10: failed reads return all-ones with errno EFAULT;
an in-range read of an all-ones register returns the same value with
errno untouched. -/
theorem c10_mmio_read_error_values_witness :
    flashrom_pci_mmio_byte_read spaceFF 7 0x20 = (0xff, EFAULT, []) ∧
    flashrom_pci_mmio_byte_read spaceFF 7 0 = (0xff, 7, [MemOp.read8 0]) ∧
    flashrom_pci_mmio_long_read spaceFF 7 0x21 = (0xffffffff, EFAULT, []) ∧
    flashrom_pci_mmio_long_read spaceFF 7 4 = (0xffffffff, 7, [MemOp.read32 4]) :=
  ⟨(c10_mmio_read_error_values spaceFF 7 0x20).1 (by decide),
   (c10_mmio_read_error_values spaceFF 7 0).2.2.1 (by decide) (by decide),
   (c10_mmio_read_error_values spaceFF 7 0x21).2.1 (Or.inl (by decide)),
   (c10_mmio_read_error_values spaceFF 7 4).2.2.2 (by decide) (by decide) (by decide)⟩

/-- Witness for C1 at a concrete single-device enumeration: the unique
survivor is returned by `pcidev_init`, and `flashrom_pci_init` returns
the enabled handle when the enable world is healthy. -/
theorem c1_resolution_multiplicity_witness :
    pcidev_init plat64 true true (fun _ => true) [entryW] PCI_BASE_ADDRESS_0 [dev_mem64] =
      PcidevInitResult.found (some dev_mem64) ∧
    flashrom_pci_init (fun _ => none) fileW true true (fun _ => true) [matchW] [dev_mem64] =
      FlashromPciInitResult.ok
        (flashrom_pci_device_enable fileW
          (flashrom_mk_device (fun _ => none) [matchW] dev_mem64)).dev :=
  ⟨(c1_resolution_multiplicity plat64 (fun _ => true) [entryW] PCI_BASE_ADDRESS_0 [matchW]
      (fun _ => none) fileW [dev_mem64] dev_mem64).1.mpr rfl,
   ((c1_resolution_multiplicity plat64 (fun _ => true) [entryW] PCI_BASE_ADDRESS_0 [matchW]
      (fun _ => none) fileW [dev_mem64] dev_mem64).2.2.2.1 rfl).1 rfl⟩
